import Mathlib

/-!
Shallow embedding of `osprofiler/drivers/jaeger.py` (class `Jaeger`):
the Tag Builder `create_span_tags` and the Span Lifecycle Manager
`notify`, together with theorems settling the specification claims.

Python values reachable in notification payloads are modelled by the
inductive `Value`; Python exceptions raised by subscripting (`KeyError`,
`TypeError`) and by `.get` on a non-dict (`AttributeError`) are modelled
by `Except PyError`.  Machine state (`self.spans`, the tracer's id
generator) is threaded explicitly through `notify`.
-/

namespace Osprofiler

/-- Model of the Python values that appear in notification payloads:
`None`, booleans, integers, strings, lists and (string-keyed) dicts. -/
inductive Value where
  | null : Value
  | bool : Bool → Value
  | int : Int → Value
  | str : String → Value
  | list : List Value → Value
  | dict : List (String × Value) → Value

/-- Python truthiness: `None`, `False`, `0`, `""`, `[]`, `\x7b\x7d` are falsy. -/
def truthy : Value → Bool
  | .null => false
  | .bool b => b
  | .int i => i != 0
  | .str s => s != ""
  | .list l => !l.isEmpty
  | .dict d => !d.isEmpty

/-- Exceptions that payload access in `create_span_tags` can raise. -/
inductive PyError where
  | keyError : String → PyError
  | typeError : PyError
  | attributeError : PyError
deriving Repr, DecidableEq

/-- Lookup in an association-list dict (Python dicts have unique keys;
the first binding wins). -/
def dictFind : List (String × Value) → String → Option Value
  | [], _ => none
  | (k, v) :: rest, key => if k = key then some v else dictFind rest key

/-- Model of Python `d.get(key)`: `None` when the key is absent;
raises `AttributeError` when the receiver is not a dict. -/
def pyGet (v : Value) (key : String) : Except PyError Value :=
  match v with
  | .dict d => .ok ((dictFind d key).getD .null)
  | _ => .error .attributeError

/-- Model of Python subscripting `d[key]`: `KeyError` when the key is
absent, `TypeError` when the receiver is not string-subscriptable. -/
def pyItem (v : Value) (key : String) : Except PyError Value :=
  match v with
  | .dict d =>
      match dictFind d key with
      | some x => .ok x
      | none => .error (.keyError key)
  | _ => .error .typeError

/-- JSON string escaping for the serializer (quotes and backslashes). -/
def jsonEscapeChar (c : Char) : String :=
  if c = '"' then "\\\"" else if c = '\\' then "\\\\" else String.singleton c

mutual

/-- Model of `jsonutils.dumps` (JSON serialization with the default
`", "` and `": "` separators of `json.dumps`). -/
def jsonDumps : Value → String
  | .null => "null"
  | .bool true => "true"
  | .bool false => "false"
  | .int i => toString i
  | .str s => "\"" ++ String.join (s.data.map jsonEscapeChar) ++ "\""
  | .list l => "[" ++ jsonDumpsList l ++ "]"
  | .dict d => "\x7b" ++ jsonDumpsDict d ++ "\x7d"

/-- Serialize the elements of a JSON array, comma-separated. -/
def jsonDumpsList : List Value → String
  | [] => ""
  | [v] => jsonDumps v
  | v :: rest => jsonDumps v ++ ", " ++ jsonDumpsList rest

/-- Serialize the entries of a JSON object, comma-separated. -/
def jsonDumpsDict : List (String × Value) → String
  | [] => ""
  | [(k, v)] => "\"" ++ k ++ "\": " ++ jsonDumps v
  | (k, v) :: rest => "\"" ++ k ++ "\": " ++ jsonDumps v ++ ", " ++ jsonDumpsDict rest

end

/-- A notification payload (spec section 3): the fields `notify` and
`create_span_tags` read.  `payload["name"]` and `payload["timestamp"]`
are strings, `payload["base_id"]` and `payload["parent_id"]` are span
identifiers (`parent_id` may be `None`), `payload["info"]` is arbitrary. -/
structure Payload where
  name : String
  timestamp : String
  baseId : Nat
  parentId : Option Nat
  info : Value

/-- Tags are built in insertion order, as in a Python dict literal. -/
abbrev Tags := List (String × Value)

/-- Embedding of `Jaeger.create_span_tags` (jaeger.py lines 187-216).
Reads `info = payload["info"]` and fills `tags` by the first truthy
branch of `info.get("db")`, `info.get("request")`, `info.get("function")`;
raised exceptions (missing sub-keys, wrong shapes) surface as `.error`. -/
def create_span_tags (payload : Payload) : Except PyError Tags := do
  let info := payload.info
  if truthy (← pyGet info "db") then
    let db ← pyItem info "db"
    let statement ← pyItem db "statement"
    let params ← pyItem db "params"
    pure [("db.statement", statement), ("db.params", .str (jsonDumps params))]
  else if truthy (← pyGet info "request") then
    let req ← pyItem info "request"
    let path ← pyItem req "path"
    let query ← pyItem req "query"
    let method ← pyItem req "method"
    let scheme ← pyItem req "scheme"
    pure [("http.path", path), ("http.query", query),
          ("http.method", method), ("http.scheme", scheme)]
  else if truthy (← pyGet info "function") then
    let fn ← pyItem info "function"
    let argsTags : Tags ←
      match fn with
      | .dict d =>
          pure ((match dictFind d "args" with
                 | some a => [("args", a)]
                 | none => []) ++
                (match dictFind d "kwargs" with
                 | some k => [("kwargs", k)]
                 | none => []))
      | _ => .error .typeError
    let nm ← pyItem fn "name"
    pure (argsTags ++ [("name", nm)])
  else
    pure []

/-- Gregorian leap-year rule, as used by Python `datetime`. -/
def isLeap (y : Nat) : Bool :=
  y % 4 = 0 && (y % 100 != 0 || y % 400 = 0)

/-- Number of days in a month, as validated by the `datetime` constructor. -/
def daysInMonth (y m : Nat) : Nat :=
  if m = 2 then (if isLeap y then 29 else 28)
  else if m = 4 || m = 6 || m = 9 || m = 11 then 30
  else 31

/-- Result of a successful `datetime.datetime.strptime` call. -/
structure DateTime where
  year : Nat
  month : Nat
  day : Nat
  hour : Nat
  minute : Nat
  second : Nat
  microsecond : Nat
deriving Repr, DecidableEq

/-- Take up to `n` leading decimal digits (at least one), returning their
value, how many were taken, and the rest of the input. -/
def takeDigits : Nat → List Char → Nat → Nat → Option (Nat × Nat × List Char)
  | 0, cs, acc, len => if len = 0 then none else some (acc, len, cs)
  | n + 1, c :: cs, acc, len =>
      if c.isDigit then takeDigits n cs (acc * 10 + (c.toNat - 48)) (len + 1)
      else if len = 0 then none else some (acc, len, c :: cs)
  | _ + 1, [], acc, len => if len = 0 then none else some (acc, len, [])

/-- Expect the literal character `c` at the head of the input. -/
def expectChar (c : Char) : List Char → Option (List Char)
  | x :: rest => if x = c then some rest else none
  | [] => none

/-- Embedding of `datetime.datetime.strptime(s, "%Y-%m-%dT%H:%M:%S.%f")`
(jaeger.py lines 92-93): a four-digit year, one-or-two-digit month, day,
hour, minute and second, and a one-to-six-digit fraction, separated by
the literal `-`, `T`, `:` and `.` characters, consuming the whole string;
field values are range-checked as `strptime` and the `datetime`
constructor do.  `none` models the `ValueError` raised on any mismatch. -/
def strptime (s : String) : Option DateTime := do
  let cs := s.data
  let (y, ylen, cs) ← takeDigits 4 cs 0 0
  if ylen != 4 || y = 0 then none else
  let cs ← expectChar '-' cs
  let (mo, _, cs) ← takeDigits 2 cs 0 0
  if mo < 1 || 12 < mo then none else
  let cs ← expectChar '-' cs
  let (d, _, cs) ← takeDigits 2 cs 0 0
  if d < 1 || daysInMonth y mo < d then none else
  let cs ← expectChar 'T' cs
  let (h, _, cs) ← takeDigits 2 cs 0 0
  if 23 < h then none else
  let cs ← expectChar ':' cs
  let (mi, _, cs) ← takeDigits 2 cs 0 0
  if 59 < mi then none else
  let cs ← expectChar ':' cs
  let (sec, _, cs) ← takeDigits 2 cs 0 0
  if 59 < sec then none else
  let cs ← expectChar '.' cs
  let (f, flen, cs) ← takeDigits 6 cs 0 0
  if !cs.isEmpty then none else
  some ⟨y, mo, d, h, mi, sec, f * 10 ^ (6 - flen)⟩

/-- Embedding of Python `s.rstrip(chars)`: removes trailing characters
that belong to the character SET `chars` (not a suffix).  This is what
`payload["name"].rstrip("-start")` at jaeger.py line 127 actually does. -/
def pyRstrip (s : String) (chars : String) : String :=
  ⟨(s.data.reverse.dropWhile (fun c => chars.data.contains c)).reverse⟩

/-- Python `s.endswith(suffix)`: a genuine suffix test. -/
def pyEndsWith (s suffix : String) : Bool :=
  List.isSuffixOf suffix.data s.data

/-- Plain suffix removal, what spec section 4.2 step 3 describes:
the operation name is `name` with the trailing `-start` removed. -/
def stripSuffix (s : String) (suffix : String) : String :=
  if pyEndsWith s suffix then ⟨s.data.take (s.data.length - suffix.data.length)⟩
  else s

/-- The event classification at jaeger.py line 91:
`payload["name"].endswith("start")` — note: no hyphen. -/
def isStartEvent (p : Payload) : Bool :=
  pyEndsWith p.name "start"

/-- One opened span: the identifiers the tracer assigned to it, its
operation name and its attribute tags.  An Activation (the
`trace.use_span` handle pushed on `self.spans`) owns exactly one span. -/
structure Span where
  traceId : Nat
  spanId : Nat
  opName : String
  tags : Tags

/-- Driver state threaded through `notify`: `self.spans` (the deque,
written here with its right end — the push/pop end — at the list head)
and the tracer's fresh-identifier source, modelled as a counter.
`opened`/`closed` are ghost counters of spans opened and closed. -/
structure JState where
  spans : List Span
  nextId : Nat
  opened : Nat
  closed : Nat

/-- The driver state right after `__init__`: an empty `self.spans`. -/
def initState : JState := ⟨[], 0, 0, 0⟩

/-- Exceptions `notify` can raise: `ValueError` from `strptime`
(the spec's MalformedTimestamp), a payload access error escaping
`create_span_tags` (the spec's MissingRequiredTagField), and
`IndexError` from popping the empty deque (the spec's UnbalancedStop). -/
inductive NotifyError where
  | valueError : NotifyError
  | payloadError : PyError → NotifyError
  | indexError : NotifyError
deriving Repr, DecidableEq

/-- Embedding of `Jaeger.notify` (jaeger.py lines 90-173).  A raised
exception surfaces as `.error`; the state component of the result is
`self.spans` (and the id counter) after the call, which is unchanged
whenever an exception is raised, because in the source every fallible
step (strptime at line 92, `create_span_tags` at line 130, `pop` at
line 159) happens before any mutation of `self.spans`.  On a start the
new span's id is fresh and its trace id is inherited from the remote
parent context `(base_id, parent_id)` when `parent_id` is not `None`,
fresh otherwise; the return value is the source's `[trace_id, span_id]`
or `[span_id]`.  A stop returns Python's implicit `None`. -/
def notify (p : Payload) (s : JState) :
    Except NotifyError (Option (List Nat)) × JState :=
  if isStartEvent p then
    match strptime p.timestamp with
    | none => (.error .valueError, s)
    | some _ =>
      let parentCtx : Option (Nat × Nat) :=
        p.parentId.map (fun pid => (p.baseId, pid))
      match create_span_tags p with
      | .error e => (.error (.payloadError e), s)
      | .ok tags =>
        let spanId := s.nextId
        let traceId :=
          match parentCtx with
          | some ctx => ctx.1
          | none => s.nextId + 1
        let sp : Span := ⟨traceId, spanId, pyRstrip p.name "-start", tags⟩
        let s' : JState :=
          { s with spans := sp :: s.spans, nextId := s.nextId + 2,
                   opened := s.opened + 1 }
        match parentCtx with
        | none => (.ok (some [traceId, spanId]), s')
        | some _ => (.ok (some [spanId]), s')
  else
    match s.spans with
    | [] => (.error .indexError, s)
    | _ :: rest =>
        (.ok none, { s with spans := rest, closed := s.closed + 1 })

/-- Deliver a sequence of notifications to one driver instance,
threading the state; the first raised exception aborts the run. -/
def notifyAll : List Payload → JState → Except NotifyError JState
  | [], s => .ok s
  | p :: ps, s =>
      match notify p s with
      | (.ok _, s') => notifyAll ps s'
      | (.error e, _) => .error e

/-- Number of start notifications in a sequence. -/
def startCount (l : List Payload) : Nat :=
  (l.filter (fun p => isStartEvent p)).length

/-- Number of stop notifications in a sequence. -/
def stopCount (l : List Payload) : Nat :=
  (l.filter (fun p => !isStartEvent p)).length

/-- A start notification is valid when its timestamp parses and its
`info` lets `create_span_tags` succeed; stops need nothing.  Spec
section 3 assumes notifications of this shape. -/
def validPayload (p : Payload) : Bool :=
  !isStartEvent p ||
    ((strptime p.timestamp).isSome &&
      (match create_span_tags p with | .ok _ => true | .error _ => false))

/-- A sequence is well-nested when no prefix closes more spans than it
opened and the whole sequence closes exactly as many as it opened. -/
def wellNested (l : List Payload) : Prop :=
  (∀ n, n ≤ l.length → stopCount (l.take n) ≤ startCount (l.take n)) ∧
    stopCount l = startCount l

lemma startCount_nil : startCount [] = 0 := rfl

lemma stopCount_nil : stopCount [] = 0 := rfl

lemma startCount_cons (p : Payload) (l : List Payload) :
    startCount (p :: l) =
      (if isStartEvent p then 1 else 0) + startCount l := by
  simp only [startCount, List.filter_cons]
  by_cases h : isStartEvent p <;> simp [h, Nat.add_comm]

lemma stopCount_cons (p : Payload) (l : List Payload) :
    stopCount (p :: l) =
      (if isStartEvent p then 0 else 1) + stopCount l := by
  simp only [stopCount, List.filter_cons]
  by_cases h : isStartEvent p <;> simp [h, Nat.add_comm]

/-- What `notify` does on a valid start notification: it succeeds,
pushes exactly one new activation onto `self.spans`, advances the id
counter, and counts one more opened span. -/
lemma notify_start_valid (p : Payload) (s : JState)
    (h : isStartEvent p = true) (hv : validPayload p = true) :
    ∃ (r : List Nat) (sp : Span),
      notify p s =
        (.ok (some r), ⟨sp :: s.spans, s.nextId + 2, s.opened + 1, s.closed⟩) := by
  simp only [validPayload, h, Bool.not_true, Bool.false_or, Bool.and_eq_true] at hv
  obtain ⟨hts, htg⟩ := hv
  obtain ⟨dt, hdt⟩ := Option.isSome_iff_exists.mp hts
  cases hcr : create_span_tags p with
  | error e => rw [hcr] at htg; exact absurd htg (by simp)
  | ok tags =>
      cases hp : p.parentId with
      | none =>
          exact ⟨[s.nextId + 1, s.nextId], ⟨s.nextId + 1, s.nextId,
            pyRstrip p.name "-start", tags⟩, by
              simp only [notify, h, if_true, hdt, hcr, hp, Option.map_none']⟩
      | some pid =>
          exact ⟨[s.nextId], ⟨p.baseId, s.nextId,
            pyRstrip p.name "-start", tags⟩, by
              simp only [notify, h, if_true, hdt, hcr, hp, Option.map_some']⟩

/-- What `notify` does on a stop notification with a non-empty stack:
it pops the top activation and closes it. -/
lemma notify_stop_pop (p : Payload) (s : JState) (sp : Span)
    (rest : List Span) (h : isStartEvent p = false)
    (hs : s.spans = sp :: rest) :
    notify p s = (.ok none, ⟨rest, s.nextId, s.opened, s.closed + 1⟩) := by
  simp only [notify, h, Bool.false_eq_true, if_false, hs]

/-- What `notify` does on a stop notification with an empty stack:
`IndexError`, state unchanged. -/
lemma notify_stop_empty (p : Payload) (s : JState)
    (h : isStartEvent p = false) (hs : s.spans = []) :
    notify p s = (.error .indexError, s) := by
  simp only [notify, h, Bool.false_eq_true, if_false, hs]

/-- Component form of `notify_start_valid`, convenient for induction. -/
lemma notify_start_components (p : Payload) (s : JState)
    (h : isStartEvent p = true) (hv : validPayload p = true) :
    ∃ (r : Option (List Nat)) (sp : Span) (s₁ : JState),
      notify p s = (.ok r, s₁) ∧ s₁.spans = sp :: s.spans ∧
      s₁.opened = s.opened + 1 ∧ s₁.closed = s.closed := by
  obtain ⟨r, sp, hn⟩ := notify_start_valid p s h hv
  exact ⟨some r, sp, ⟨sp :: s.spans, s.nextId + 2, s.opened + 1, s.closed⟩,
    hn, rfl, rfl, rfl⟩

/-- Unfolding step for `notifyAll` on a successful notification. -/
lemma notifyAll_cons_ok (p : Payload) (ps : List Payload) (s : JState)
    (r : Option (List Nat)) (sA : JState) (hn : notify p s = (.ok r, sA)) :
    notifyAll (p :: ps) s = notifyAll ps sA := by
  simp only [notifyAll, hn]

/-- Induction workhorse: a run in which every start is valid and no
prefix over-closes succeeds, and its stack length and ghost counters
move by exactly the start/stop counts. -/
lemma notifyAll_ok (l : List Payload) :
    ∀ s : JState, (∀ p ∈ l, validPayload p = true) →
    (∀ n, stopCount (l.take n) ≤ startCount (l.take n) + s.spans.length) →
    ∃ s' : JState, notifyAll l s = .ok s' ∧
      s'.spans.length + stopCount l = s.spans.length + startCount l ∧
      s'.opened = s.opened + startCount l ∧
      s'.closed = s.closed + stopCount l := by
  induction l with
  | nil =>
      intro s _ _
      exact ⟨s, rfl, by simp [startCount_nil, stopCount_nil]⟩
  | cons p ps ih =>
      intro s hval hpre
      by_cases h : isStartEvent p = true
      · obtain ⟨r, sp, s₁, hn, hsp, hop1, hcl1⟩ :=
          notify_start_components p s h (hval p (List.mem_cons_self p ps))
        have hlen1 : s₁.spans.length = s.spans.length + 1 := by
          rw [hsp, List.length_cons]
        obtain ⟨s', hrun, hlen, hop, hcl⟩ := ih s₁
          (fun q hq => hval q (List.mem_cons_of_mem p hq))
          (by
            intro n
            have hp := hpre (n + 1)
            rw [List.take_succ_cons, startCount_cons, stopCount_cons, h,
              if_pos rfl, if_pos rfl] at hp
            omega)
        refine ⟨s', ?_, ?_, ?_, ?_⟩
        · rw [notifyAll_cons_ok p ps s r s₁ hn]; exact hrun
        · rw [startCount_cons, stopCount_cons, h, if_pos rfl, if_pos rfl]
          omega
        · rw [startCount_cons, h, if_pos rfl]
          omega
        · rw [stopCount_cons, h, if_pos rfl]
          omega
      · have h' : isStartEvent p = false := by
          cases hb : isStartEvent p
          · rfl
          · exact absurd hb h
        have hne : 1 ≤ s.spans.length := by
          have hp := hpre 1
          rw [List.take_succ_cons, List.take_zero, startCount_cons,
            stopCount_cons, h', if_neg (by simp), if_neg (by simp),
            startCount_nil, stopCount_nil] at hp
          omega
        cases hs : s.spans with
        | nil => rw [hs] at hne; exact absurd hne (by simp)
        | cons sp rest =>
            have hn := notify_stop_pop p s sp rest h' hs
            have hlen1 : s.spans.length = rest.length + 1 := by
              rw [hs, List.length_cons]
            obtain ⟨s', hrun, hlen, hop, hcl⟩ :=
              ih ⟨rest, s.nextId, s.opened, s.closed + 1⟩
                (fun q hq => hval q (List.mem_cons_of_mem p hq))
                (by
                  intro n
                  have hp := hpre (n + 1)
                  rw [List.take_succ_cons, startCount_cons, stopCount_cons,
                    h', if_neg (by simp), if_neg (by simp)] at hp
                  show stopCount _ ≤ startCount _ + rest.length
                  omega)
            have e1 : (⟨rest, s.nextId, s.opened, s.closed + 1⟩ :
              JState).spans = rest := rfl
            have e2 : (⟨rest, s.nextId, s.opened, s.closed + 1⟩ :
              JState).opened = s.opened := rfl
            have e3 : (⟨rest, s.nextId, s.opened, s.closed + 1⟩ :
              JState).closed = s.closed + 1 := rfl
            rw [e1] at hlen
            rw [e2] at hop
            rw [e3] at hcl
            refine ⟨s', ?_, ?_, ?_, ?_⟩
            · rw [notifyAll_cons_ok p ps s none
                ⟨rest, s.nextId, s.opened, s.closed + 1⟩ hn]
              exact hrun
            · rw [startCount_cons, stopCount_cons, h', if_neg (by simp),
                if_neg (by simp), List.length_cons]
              omega
            · rw [startCount_cons, h', if_neg (by simp)]
              omega
            · rw [stopCount_cons, h', if_neg (by simp)]
              omega

/-- A well-formed notification timestamp, used for concrete runs. -/
def tsValid : String := "2018-05-03T10:02:01.935778"

/-- A root start notification (no parent). -/
def pRoot : Payload := ⟨"wsgi-start", tsValid, 0, none, .dict []⟩

/-- A child start notification (remote parent `(5, 7)`). -/
def pChild : Payload := ⟨"db-start", tsValid, 5, some 7, .dict []⟩

/-- A stop notification. -/
def pStopA : Payload := ⟨"db-stop", "", 0, none, .null⟩

/-- Another stop notification. -/
def pStopB : Payload := ⟨"wsgi-stop", "", 0, none, .null⟩

/-- A start notification with an unparseable timestamp. -/
def pBadTs : Payload := ⟨"wsgi-start", "not-a-timestamp", 0, none, .dict []⟩

/-- Claim C1: every start notification that `notify` processes
successfully opens one new span, and the returned identifier list is
`[trace_id, span_id]` of that span when `parent_id` is `None` and
`[span_id]` of that span when `parent_id` is non-null. -/
theorem start_return_identifiers (p : Payload) (s : JState)
    (r : Option (List Nat)) (s' : JState)
    (hstart : isStartEvent p = true)
    (h : notify p s = (.ok r, s')) :
    ∃ sp : Span, s'.spans = sp :: s.spans ∧
      (p.parentId = none → r = some [sp.traceId, sp.spanId]) ∧
      (∀ pid, p.parentId = some pid → r = some [sp.spanId]) := by
  cases hts : strptime p.timestamp with
  | none =>
      simp only [notify, hstart, if_true, hts] at h
      simp only [Prod.mk.injEq] at h
      exact absurd h.1 (by simp)
  | some dt =>
      cases hcr : create_span_tags p with
      | error e =>
          simp only [notify, hstart, if_true, hts, hcr] at h
          simp only [Prod.mk.injEq] at h
          exact absurd h.1 (by simp)
      | ok tags =>
          cases hp : p.parentId with
          | none =>
              simp only [notify, hstart, if_true, hts, hcr, hp,
                Option.map_none'] at h
              simp only [Prod.mk.injEq, Except.ok.injEq] at h
              obtain ⟨hr, hs'⟩ := h
              refine ⟨⟨s.nextId + 1, s.nextId, pyRstrip p.name "-start", tags⟩,
                ?_, ?_, ?_⟩
              · rw [← hs']
              · intro _
                rw [← hr]
              · intro pid hpid
                exact absurd hpid (by simp)
          | some pid0 =>
              simp only [notify, hstart, if_true, hts, hcr, hp,
                Option.map_some'] at h
              simp only [Prod.mk.injEq, Except.ok.injEq] at h
              obtain ⟨hr, hs'⟩ := h
              refine ⟨⟨p.baseId, s.nextId, pyRstrip p.name "-start", tags⟩,
                ?_, ?_, ?_⟩
              · rw [← hs']
              · intro hnone
                exact absurd hnone (by simp)
              · intro pid hpid
                rw [← hr]

/-- Witness for C1: a concrete root start returns the pair
`[trace_id, span_id]` of the span it pushed. -/
theorem start_return_identifiers_check :
    ∃ sp : Span,
      (⟨[⟨1, 0, "wsgi", []⟩], 2, 1, 0⟩ : JState).spans = sp :: initState.spans ∧
      (pRoot.parentId = none → some [1, 0] = some [sp.traceId, sp.spanId]) ∧
      (∀ pid, pRoot.parentId = some pid → some [1, 0] = some [sp.spanId]) :=
  start_return_identifiers pRoot initState (some [1, 0])
    ⟨[⟨1, 0, "wsgi", []⟩], 2, 1, 0⟩ (by decide) rfl

/-- Claim C3: a stop notification arriving on an empty Activation Stack
raises an error to the caller (`IndexError` from popping the empty
deque, the spec's UnbalancedStop) and leaves the state — in particular
the stack, still empty — unchanged; `notify` is a total function, so
no crash. -/
theorem stop_empty_stack_error (p : Payload) (s : JState)
    (h : isStartEvent p = false) (hs : s.spans = []) :
    notify p s = (.error .indexError, s) ∧ (notify p s).2.spans = [] := by
  refine ⟨notify_stop_empty p s h hs, ?_⟩
  rw [notify_stop_empty p s h hs]
  exact hs

/-- Witness for C3: a concrete stop on the freshly constructed driver. -/
theorem stop_empty_stack_error_check :
    notify pStopA initState = (.error .indexError, initState) ∧
      (notify pStopA initState).2.spans = [] :=
  stop_empty_stack_error pStopA initState (by decide) rfl

/-- Claim C4 (code bug): `payload["name"].rstrip("-start")` strips the
trailing character SET `\x7b'-','s','t','a','r'\x7d`, not the suffix
`-start`: on the start notification named `"bar-start"` the opened span
is named `"b"`, while suffix stripping — what the spec states — gives
`"bar"`. -/
theorem rstrip_is_charset_strip :
    ((notify ⟨"bar-start", tsValid, 0, none, .dict []⟩ initState).2.spans.map
        Span.opName = ["b"]) ∧
    pyRstrip "bar-start" "-start" = "b" ∧
    stripSuffix "bar-start" "-start" = "bar" ∧
    pyRstrip "bar-start" "-start" ≠ stripSuffix "bar-start" "-start" := by
  refine ⟨rfl, rfl, rfl, by decide⟩

/-- Claim C5: the Tag Builder is pure — it reads only `payload["info"]`
— and total in the sense that for every info it either returns a tag
mapping or reports a malformed payload to the caller as a raised lookup
error (e.g. `KeyError("name")` when the chosen `function` branch lacks
the required `name` field); no other outcome exists. -/
theorem tag_builder_pure_total :
    (∀ p q : Payload, p.info = q.info →
      create_span_tags p = create_span_tags q) ∧
    (∀ p : Payload, (∃ tags, create_span_tags p = .ok tags) ∨
      (∃ e : PyError, create_span_tags p = .error e)) ∧
    (create_span_tags ⟨"x", "t", 0, none,
        .dict [("function", .dict [("args", .list [.int 1])])]⟩ =
      .error (.keyError "name")) := by
  refine ⟨?_, ?_, rfl⟩
  · intro p q hinfo
    simp only [create_span_tags, hinfo]
  · intro p
    cases hc : create_span_tags p with
    | ok tags => exact Or.inl ⟨tags, rfl⟩
    | error e => exact Or.inr ⟨e, rfl⟩

/-- Witness for C5: purity and totality applied at concrete payloads. -/
theorem tag_builder_pure_total_check :
    create_span_tags ⟨"a", "t", 1, none, .dict []⟩ =
      create_span_tags ⟨"b", "u", 2, some 3, .dict []⟩ ∧
    ((∃ tags, create_span_tags pRoot = .ok tags) ∨
      (∃ e : PyError, create_span_tags pRoot = .error e)) :=
  ⟨tag_builder_pure_total.1 ⟨"a", "t", 1, none, .dict []⟩
      ⟨"b", "u", 2, some 3, .dict []⟩ rfl,
    tag_builder_pure_total.2.1 pRoot⟩

/-- Claim C6: a start notification whose timestamp does not parse makes
`notify` raise `ValueError` to the caller before anything else happens:
no span is opened and the state — in particular the Activation Stack —
is returned unchanged. -/
theorem malformed_timestamp_atomic (p : Payload) (s : JState)
    (h : isStartEvent p = true) (hts : strptime p.timestamp = none) :
    notify p s = (.error .valueError, s) := by
  simp only [notify, h, if_true, hts]

/-- Witness for C6: a concrete garbage timestamp aborts atomically. -/
theorem malformed_timestamp_atomic_check :
    notify pBadTs initState = (.error .valueError, initState) :=
  malformed_timestamp_atomic pBadTs initState (by decide) rfl

/-- Claim C8: on the db payload
`info = \x7b"db": \x7b"statement": "SELECT 1", "params": \x7b"a": 1\x7d\x7d\x7d`
the Tag Builder produces exactly `db.statement` mapped to the raw
statement text and `db.params` mapped to the JSON serialization of the
parameter mapping, and no other keys. -/
theorem db_tags_exact :
    create_span_tags ⟨"x-start", "t", 0, none,
        .dict [("db", .dict [("statement", .str "SELECT 1"),
          ("params", .dict [("a", .int 1)])])]⟩ =
      .ok [("db.statement", .str "SELECT 1"),
           ("db.params", .str (jsonDumps (.dict [("a", .int 1)])))] ∧
    jsonDumps (.dict [("a", .int 1)]) = "\x7b\"a\": 1\x7d" ∧
    (create_span_tags ⟨"x-start", "t", 0, none,
        .dict [("db", .dict [("statement", .str "SELECT 1"),
          ("params", .dict [("a", .int 1)])])]⟩).map (fun t => t.map Prod.fst) =
      .ok ["db.statement", "db.params"] :=
  ⟨rfl, rfl, rfl⟩

/-- Claim C9: on `info = \x7b"function": \x7b"name": "foo", "args": [1, 2]\x7d\x7d`
with no `kwargs`, the Tag Builder produces exactly the two entries
`args` and `name` and omits `kwargs` entirely — no null placeholder. -/
theorem function_tags_omit_kwargs :
    create_span_tags ⟨"x", "t", 0, none,
        .dict [("function", .dict [("name", .str "foo"),
          ("args", .list [.int 1, .int 2])])]⟩ =
      .ok [("args", .list [.int 1, .int 2]), ("name", .str "foo")] ∧
    dictFind [("args", Value.list [.int 1, .int 2]), ("name", Value.str "foo")]
      "kwargs" = none ∧
    dictFind [("args", Value.list [.int 1, .int 2]), ("name", Value.str "foo")]
      "name" = some (.str "foo") ∧
    dictFind [("args", Value.list [.int 1, .int 2]), ("name", Value.str "foo")]
      "args" = some (.list [.int 1, .int 2]) ∧
    ([("args", Value.list [.int 1, .int 2]),
      ("name", Value.str "foo")] : Tags).length = 2 :=
  ⟨rfl, rfl, rfl, rfl, rfl⟩

/-- Claim C10: `notify` classifies a notification as a start exactly
when its name ends in the five characters `start` (so `"restart"` is a
start), and every other name — whether or not it ends in `-stop` — is
handled as a stop that pops and closes the top activation while reading
no other field of the payload. -/
theorem start_classification_no_hyphen :
    isStartEvent ⟨"restart", "", 0, none, .null⟩ = true ∧
    isStartEvent ⟨"anything-else", "", 0, none, .null⟩ = false ∧
    (∀ (p q : Payload) (s : JState), isStartEvent p = false →
      isStartEvent q = false → notify p s = notify q s) ∧
    (∀ (p : Payload) (s : JState) (sp : Span) (rest : List Span),
      isStartEvent p = false → s.spans = sp :: rest →
      notify p s = (.ok none, ⟨rest, s.nextId, s.opened, s.closed + 1⟩)) := by
  refine ⟨by decide, by decide, ?_, ?_⟩
  · intro p q s hp hq
    cases hs : s.spans with
    | nil =>
        rw [notify_stop_empty p s hp hs, notify_stop_empty q s hq hs]
    | cons sp rest =>
        rw [notify_stop_pop p s sp rest hp hs,
          notify_stop_pop q s sp rest hq hs]
  · intro p s sp rest hp hs
    exact notify_stop_pop p s sp rest hp hs

/-- Witness for C10: two differently-shaped stop notifications act
identically on a concrete one-span state, popping and closing its top. -/
theorem start_classification_no_hyphen_check :
    notify pStopA ⟨[⟨9, 9, "x", []⟩], 4, 1, 0⟩ =
      notify ⟨"weird", "zzz", 3, some 2, .int 7⟩ ⟨[⟨9, 9, "x", []⟩], 4, 1, 0⟩ ∧
    notify pStopA ⟨[⟨9, 9, "x", []⟩], 4, 1, 0⟩ = (.ok none, ⟨[], 4, 1, 1⟩) :=
  ⟨start_classification_no_hyphen.2.2.1 pStopA
      ⟨"weird", "zzz", 3, some 2, .int 7⟩ ⟨[⟨9, 9, "x", []⟩], 4, 1, 0⟩
      (by decide) (by decide),
    start_classification_no_hyphen.2.2.2 pStopA ⟨[⟨9, 9, "x", []⟩], 4, 1, 0⟩
      ⟨9, 9, "x", []⟩ [] (by decide) rfl⟩

lemma except_bind_ok {ε α β : Type} (a : α) (f : α → Except ε β) :
    (Except.ok a : Except ε α) >>= f = f a := rfl

lemma except_bind_error {ε α β : Type} (e : ε) (f : α → Except ε β) :
    (Except.error e : Except ε α) >>= f = (.error e : Except ε β) := rfl

lemma except_pure {ε α : Type} (a : α) :
    (pure a : Except ε α) = .ok a := rfl

lemma pyGet_dict (d : List (String × Value)) (k : String) :
    pyGet (.dict d) k = .ok ((dictFind d k).getD .null) := rfl

lemma pyItem_dict_some (d : List (String × Value)) (k : String) (v : Value)
    (h : dictFind d k = some v) : pyItem (.dict d) k = .ok v := by
  simp [pyItem, h]

/-- The entries of an info mapping that contains both a `db` key (bound
to an empty, hence falsy, mapping) and a `request` key. -/
def infoBothEntries : List (String × Value) :=
  [("db", .dict []),
   ("request", .dict [("path", .str "/x"), ("query", .str "q=1"),
                      ("method", .str "GET"), ("scheme", .str "http")])]

/-- Claim C2 counterexample: an info mapping containing both a `db` key
and a `request` key for which `create_span_tags` produces the `http.*`
tags, not the `db.*` tags — branch selection tests truthiness of
`info.get("db")`, not key presence, and `\x7b\x7d` is falsy. -/
theorem db_key_not_sufficient_cex :
    (dictFind infoBothEntries "db").isSome = true ∧
    (dictFind infoBothEntries "request").isSome = true ∧
    (create_span_tags ⟨"x-start", "t", 0, none, .dict infoBothEntries⟩).map
        (fun t => t.map Prod.fst) =
      .ok ["http.path", "http.query", "http.method", "http.scheme"] :=
  ⟨rfl, rfl, rfl⟩

/-- Claim C2 (amended): `create_span_tags` selects exactly one branch by
fixed priority over the TRUTHINESS of `info.get("db")`,
`info.get("request")`, `info.get("function")` — db first, else request,
else function; when none of the three is truthy it returns an empty
mapping without error; and whenever the branch it selected succeeds, the
produced keys are exactly that branch's keys — in the function case
`args`/`kwargs` only when present, plus `name`, and never any
`db.*`/`http.*` key. -/
theorem branch_priority_truthy (p : Payload) (d : List (String × Value))
    (hinfo : p.info = .dict d) :
    (truthy ((dictFind d "db").getD .null) = true →
      ∀ tags, create_span_tags p = .ok tags →
        tags.map Prod.fst = ["db.statement", "db.params"]) ∧
    (truthy ((dictFind d "db").getD .null) = false →
      truthy ((dictFind d "request").getD .null) = true →
      ∀ tags, create_span_tags p = .ok tags →
        tags.map Prod.fst =
          ["http.path", "http.query", "http.method", "http.scheme"]) ∧
    (truthy ((dictFind d "db").getD .null) = false →
      truthy ((dictFind d "request").getD .null) = false →
      truthy ((dictFind d "function").getD .null) = true →
      ∀ tags, create_span_tags p = .ok tags →
        ∃ fd : List (String × Value),
          dictFind d "function" = some (.dict fd) ∧
          tags.map Prod.fst =
            (if (dictFind fd "args").isSome then ["args"] else []) ++
            (if (dictFind fd "kwargs").isSome then ["kwargs"] else []) ++
            ["name"]) ∧
    (truthy ((dictFind d "db").getD .null) = false →
      truthy ((dictFind d "request").getD .null) = false →
      truthy ((dictFind d "function").getD .null) = false →
      create_span_tags p = .ok []) := by
  refine ⟨?_, ?_, ?_, ?_⟩
  · intro hdb tags htags
    cases hfind : dictFind d "db" with
    | none =>
        rw [hfind] at hdb
        exact absurd hdb (by simp [truthy])
    | some v =>
        rw [hfind, Option.getD_some] at hdb
        simp only [create_span_tags, hinfo, pyGet_dict, except_bind_ok,
          hfind, Option.getD_some, hdb, if_true,
          pyItem_dict_some d "db" v hfind] at htags
        cases hst : pyItem v "statement" with
        | error e =>
            rw [hst, except_bind_error] at htags
            exact absurd htags (by simp)
        | ok st =>
            cases hpr : pyItem v "params" with
            | error e =>
                rw [hst, except_bind_ok, hpr, except_bind_error] at htags
                exact absurd htags (by simp)
            | ok pr =>
                rw [hst, except_bind_ok, hpr, except_bind_ok,
                  except_pure] at htags
                simp only [Except.ok.injEq] at htags
                rw [← htags]
                rfl
  · intro hdb hreq tags htags
    cases hfind : dictFind d "request" with
    | none =>
        rw [hfind] at hreq
        exact absurd hreq (by simp [truthy])
    | some v =>
        rw [hfind, Option.getD_some] at hreq
        simp only [create_span_tags, hinfo, pyGet_dict, except_bind_ok,
          hdb, hfind, Option.getD_some, hreq, if_true,
          Bool.false_eq_true, if_false,
          pyItem_dict_some d "request" v hfind] at htags
        cases h1 : pyItem v "path" with
        | error e =>
            rw [h1, except_bind_error] at htags
            exact absurd htags (by simp)
        | ok path =>
            cases h2 : pyItem v "query" with
            | error e =>
                rw [h1, except_bind_ok, h2, except_bind_error] at htags
                exact absurd htags (by simp)
            | ok query =>
                cases h3 : pyItem v "method" with
                | error e =>
                    rw [h1, except_bind_ok, h2, except_bind_ok, h3,
                      except_bind_error] at htags
                    exact absurd htags (by simp)
                | ok method =>
                    cases h4 : pyItem v "scheme" with
                    | error e =>
                        rw [h1, except_bind_ok, h2, except_bind_ok, h3,
                          except_bind_ok, h4, except_bind_error] at htags
                        exact absurd htags (by simp)
                    | ok scheme =>
                        rw [h1, except_bind_ok, h2, except_bind_ok, h3,
                          except_bind_ok, h4, except_bind_ok,
                          except_pure] at htags
                        simp only [Except.ok.injEq] at htags
                        rw [← htags]
                        rfl
  · intro hdb hreq hfn tags htags
    cases hfind : dictFind d "function" with
    | none =>
        rw [hfind] at hfn
        exact absurd hfn (by simp [truthy])
    | some v =>
        rw [hfind, Option.getD_some] at hfn
        simp only [create_span_tags, hinfo, pyGet_dict, except_bind_ok,
          hdb, hreq, hfind, Option.getD_some, hfn, if_true,
          Bool.false_eq_true, if_false,
          pyItem_dict_some d "function" v hfind] at htags
        cases v with
        | dict fd =>
            simp only [except_pure, except_bind_ok] at htags
            cases hnm : pyItem (.dict fd) "name" with
            | error e =>
                rw [hnm, except_bind_error] at htags
                exact absurd htags (by simp)
            | ok nm =>
                rw [hnm, except_bind_ok] at htags
                simp only [Except.ok.injEq] at htags
                refine ⟨fd, rfl, ?_⟩
                rw [← htags]
                cases ha : dictFind fd "args" <;>
                  cases hk : dictFind fd "kwargs" <;> simp [ha, hk]
        | null => simp [except_bind_error] at htags
        | bool b => simp [except_bind_error] at htags
        | int i => simp [except_bind_error] at htags
        | str st => simp [except_bind_error] at htags
        | list l => simp [except_bind_error] at htags
  · intro hdb hreq hfn
    simp only [create_span_tags, hinfo, pyGet_dict, except_bind_ok, hdb,
      hreq, hfn, Bool.false_eq_true, if_false, except_pure]

/-- Witness for the amended C2: on a payload whose `db` value is truthy
the produced keys are exactly the two db keys. -/
theorem branch_priority_truthy_check :
    ([("db.statement", Value.str "SELECT 1"),
      ("db.params", Value.str "\x7b\"a\": 1\x7d")] : Tags).map Prod.fst =
      ["db.statement", "db.params"] :=
  (branch_priority_truthy
    ⟨"x-start", "t", 0, none,
      .dict [("db", .dict [("statement", .str "SELECT 1"),
        ("params", .dict [("a", .int 1)])])]⟩
    [("db", .dict [("statement", .str "SELECT 1"),
      ("params", .dict [("a", .int 1)])])] rfl).1 (by decide) _ rfl

/-- Claim C7: on any well-nested, valid notification sequence delivered
from construction, the run succeeds, the Activation Stack is empty again
at the end, and the number of opened spans equals the number of closed
spans; moreover each valid start grows the stack by exactly one and each
stop on a non-empty stack shrinks it by exactly one. -/
theorem well_nested_balanced_run :
    (∀ l : List Payload, (∀ p ∈ l, validPayload p = true) → wellNested l →
      ∃ s' : JState, notifyAll l initState = .ok s' ∧ s'.spans = [] ∧
        s'.opened = startCount l ∧ s'.closed = stopCount l ∧
        s'.opened = s'.closed) ∧
    (∀ (p : Payload) (s : JState), isStartEvent p = true →
      validPayload p = true →
      (notify p s).2.spans.length = s.spans.length + 1) ∧
    (∀ (p : Payload) (s : JState), isStartEvent p = false →
      s.spans ≠ [] → (notify p s).2.spans.length = s.spans.length - 1) := by
  refine ⟨?_, ?_, ?_⟩
  · intro l hval hwn
    obtain ⟨hpre, hbal⟩ := hwn
    have h0 : initState.spans.length = 0 := rfl
    have hpre' : ∀ n,
        stopCount (l.take n) ≤ startCount (l.take n) + initState.spans.length := by
      intro n
      by_cases hn : n ≤ l.length
      · rw [h0, Nat.add_zero]
        exact hpre n hn
      · rw [List.take_of_length_le (le_of_not_le hn), h0, Nat.add_zero, hbal]
    obtain ⟨s', hrun, hlen, hop, hcl⟩ := notifyAll_ok l initState hval hpre'
    have hop0 : initState.opened = 0 := rfl
    have hcl0 : initState.closed = 0 := rfl
    rw [h0] at hlen
    rw [hop0] at hop
    rw [hcl0] at hcl
    have hsl : s'.spans.length = 0 := by omega
    exact ⟨s', hrun, List.length_eq_zero.mp hsl, by omega, by omega, by omega⟩
  · intro p s h hv
    obtain ⟨r, sp, s₁, hn, hsp, _, _⟩ := notify_start_components p s h hv
    have h2 : (notify p s).2 = s₁ := by rw [hn]
    rw [h2, hsp, List.length_cons]
  · intro p s h hne
    cases hs : s.spans with
    | nil => exact absurd hs hne
    | cons sp rest =>
        have h2 : (notify p s).2 = ⟨rest, s.nextId, s.opened, s.closed + 1⟩ := by
          rw [notify_stop_pop p s sp rest h hs]
        have e1 : (⟨rest, s.nextId, s.opened, s.closed + 1⟩ :
          JState).spans = rest := rfl
        rw [h2, e1, List.length_cons]
        omega

/-- A concrete well-nested run: root start, child start, two stops. -/
def c7Run : List Payload := [pRoot, pChild, pStopA, pStopB]

/-- Witness for C7: the concrete run empties the stack and balances the
opened/closed counters at two each. -/
theorem well_nested_balanced_run_check :
    ∃ s' : JState, notifyAll c7Run initState = .ok s' ∧ s'.spans = [] ∧
      s'.opened = startCount c7Run ∧ s'.closed = stopCount c7Run ∧
      s'.opened = s'.closed :=
  well_nested_balanced_run.1 c7Run (by decide) ⟨by decide, by decide⟩

end Osprofiler
